import Mathlib

/-!
Formal model of `src/Raspberry/main.cpp` (CRSF-M ground-station control core).

The embedding is shallow: C integer arithmetic is modelled on `Int`/`Nat`
with explicit wraparound where the C types make it observable
(`Int.tdiv` for C's truncating `/` on signed integers, explicit `% 2^32`
for `uint32_t`, an explicit `int16_t` wrap for the joystick axes).
The global `currentChannels[16]` array is a function `Fin 16 → Int`;
the scheduler's per-tick send decision is a pure step function on the
pair `(lastSendMs, needToSendChannels)`.
-/

namespace CRSFM

/-! ## Constants (`namespace Constants`, main.cpp lines 24-38) -/

def CRSF_SEND_PERIOD_MS : Nat := 10
def TELEMETRY_UPDATE_MS : Nat := 20
def CHANNEL_MIN : Int := 1000
def CHANNEL_MAX : Int := 2000
def CHANNEL_COUNT : Nat := 16
def JOYSTICK_DEADZONE : Int := 100
def DEFAULT_CHANNEL_VALUE : Int := 1500
def DEFAULT_THROTTLE_VALUE : Int := 1000

/-- `2^32`, the modulus of C `unsigned int` / `uint32_t` arithmetic. -/
def U32 : Nat := 4294967296

/-- `2^16` and `2^15`, for the `int16_t` wraparound. -/
def I16MOD : Int := 65536

def I16HALF : Int := 32768

/-! ## ChannelStore (`currentChannels`, main.cpp lines 41-59) -/

/-- The global `int currentChannels[16]` array. -/
def ChannelStore := Fin 16 → Int

/-- Static initializer of `currentChannels` (lines 42-59): all sixteen
entries are `DEFAULT_CHANNEL_VALUE` (1500). -/
def initialChannels : ChannelStore := fun _ => DEFAULT_CHANNEL_VALUE

/-- The direct pre-loop write `currentChannels[2] = DEFAULT_THROTTLE_VALUE`
performed by `main` (lines 279-283) under the mutex. -/
def throttleInit (s : ChannelStore) : ChannelStore :=
  fun i => if (i : Nat) = 2 then DEFAULT_THROTTLE_VALUE else s i

/-- `safeSetChannel(unsigned int channel, int value)` (lines 115-121):
writes `currentChannels[channel-1] = value` only when
`1 <= channel <= 16` and `1000 <= value <= 2000`; otherwise it is a
no-op.  `channel` is `unsigned`, modelled as `Nat`. -/
def safeSetChannel (channel : Nat) (value : Int) (s : ChannelStore) : ChannelStore :=
  if 1 ≤ channel ∧ channel ≤ CHANNEL_COUNT ∧
      CHANNEL_MIN ≤ value ∧ value ≤ CHANNEL_MAX then
    fun i => if (i : Nat) = channel - 1 then value else s i
  else s

/-! ## InputMapper (`axisToUs`, main.cpp lines 97-112) -/

/-- `axisToUs(int16_t value)` (lines 97-112).  The cast
`static_cast<int32_t>(Constants::JOYSTICK_SCALE_FACTOR)` turns the float
constant `500.0f` into the integer `500`; `scaled / 32768` is C signed
division, which truncates toward zero (`Int.tdiv`). -/
def axisToUs (value : Int) : Int :=
  if value < JOYSTICK_DEADZONE ∧ -JOYSTICK_DEADZONE < value then 1500
  else
    let scaled : Int := value * 500
    let result : Int := 1500 + Int.tdiv scaled 32768
    if result < CHANNEL_MIN then CHANNEL_MIN
    else if result > CHANNEL_MAX then CHANNEL_MAX
    else result

/-- The final clamping steps of `axisToUs` (lines 109-111), factored out
for the proofs. -/
def clampChan (r : Int) : Int :=
  if r < CHANNEL_MIN then CHANNEL_MIN
  else if r > CHANNEL_MAX then CHANNEL_MAX
  else r

/-- Conversion of an integer to the `int16_t` range by two's-complement
wraparound, as performed when the promoted `int` expression `-axes[i]`
is converted back to the `int16_t` parameter of `axisToUs`
(main.cpp lines 323-326). -/
def toInt16 (v : Int) : Int := Int.emod (v + I16HALF) I16MOD - I16HALF

/-- The mapping applied to the two inverted axes (throttle, pitch):
`axisToUs(-v)` where the negated value is wrapped back into `int16_t`. -/
def invertedAxis (v : Int) : Int := axisToUs (toInt16 (-v))

/-- Modelled from the spec (§4.2): the reference mapping `mapAxis` —
return 1500 exactly inside the dead-zone `|v| < 100`, otherwise
`1500 + (v * 500) / 32768` with truncating integer division, clamped
into `[1000, 2000]`.  Used only to compare against `axisToUs`. -/
def mapAxisSpec (v : Int) : Int :=
  if |v| < 100 then 1500
  else min 2000 (max 1000 (1500 + Int.tdiv (v * 500) 32768))

/-! ## Helper lemmas about truncating division -/

theorem tdiv_le_tdiv_right {a b d : Int} (hd : 0 < d) (hab : a ≤ b) :
    Int.tdiv a d ≤ Int.tdiv b d := by
  rcases le_or_lt 0 a with ha | ha
  · rw [Int.tdiv_eq_ediv ha hd.le, Int.tdiv_eq_ediv (ha.trans hab) hd.le]
    exact Int.ediv_le_ediv hd hab
  · rcases le_or_lt 0 b with hb | hb
    · have h1 : Int.tdiv a d ≤ 0 := by
        have h := Int.tdiv_nonneg (a := -a) (b := d) (by omega) hd.le
        rw [Int.neg_tdiv] at h
        omega
      have h2 : 0 ≤ Int.tdiv b d := Int.tdiv_nonneg hb hd.le
      omega
    · have h : Int.tdiv (-b) d ≤ Int.tdiv (-a) d := by
        rw [Int.tdiv_eq_ediv (by omega) hd.le, Int.tdiv_eq_ediv (by omega) hd.le]
        exact Int.ediv_le_ediv hd (by omega)
      rw [Int.neg_tdiv, Int.neg_tdiv] at h
      omega

theorem axisToUs_eq (v : Int) :
    axisToUs v =
      if v < 100 ∧ -100 < v then 1500
      else clampChan (1500 + Int.tdiv (v * 500) 32768) := rfl

theorem clampChan_mono {r1 r2 : Int} (h : r1 ≤ r2) : clampChan r1 ≤ clampChan r2 := by
  unfold clampChan CHANNEL_MIN CHANNEL_MAX
  split_ifs <;> omega

theorem clampChan_range (r : Int) : 1000 ≤ clampChan r ∧ clampChan r ≤ 2000 := by
  unfold clampChan CHANNEL_MIN CHANNEL_MAX
  split_ifs <;> omega

/-! ## CommandProtocol (`parseCommand`, main.cpp lines 124-174)

Strings are processed as `List Char`.  `istringstream >> token`
splits on the C locale's whitespace; `std::stoi` skips leading
whitespace, accepts one optional sign, requires at least one decimal
digit, stops at the first non-digit, and throws (modelled as `none`)
when there is no digit or the value falls outside `int` range. -/

/-- C locale `isspace`. -/
def isCppSpace (c : Char) : Bool :=
  c == ' ' || c == '\t' || c == '\n' || c == '\x0b' || c == '\x0c' || c == '\r'

/-- Accumulator-based whitespace tokenizer: the stream of tokens that
successive `iss >> token` extractions produce. -/
def tokenizeAux : List Char → List Char → List (List Char)
  | [], acc => if acc = [] then [] else [acc.reverse]
  | c :: cs, acc =>
    if isCppSpace c then
      if acc = [] then tokenizeAux cs []
      else acc.reverse :: tokenizeAux cs []
    else tokenizeAux cs (c :: acc)

def tokenize (cs : List Char) : List (List Char) := tokenizeAux cs []

def isDigitChar (c : Char) : Bool := '0' ≤ c && c ≤ '9'

def takeDigits (cs : List Char) : List Char := cs.takeWhile isDigitChar

def digitsToNat (ds : List Char) : Nat :=
  ds.foldl (fun acc c => 10 * acc + (c.toNat - '0'.toNat)) 0

/-- `std::stoi`: skip leading whitespace, optional `+`/`-`, at least one
digit (else `std::invalid_argument`, modelled `none`), stop at the first
non-digit; values outside `int` range throw `std::out_of_range`
(modelled `none`). -/
def stoi (cs : List Char) : Option Int :=
  let cs1 := cs.dropWhile isCppSpace
  let signAndRest : Bool × List Char :=
    match cs1 with
    | '-' :: rest => (true, rest)
    | '+' :: rest => (false, rest)
    | _ => (false, cs1)
  let ds := takeDigits signAndRest.2
  if ds = [] then none
  else
    let v : Int := if signAndRest.1 then -(digitsToNat ds : Int) else (digitsToNat ds : Int)
    if v < -(2 ^ 31) ∨ 2 ^ 31 - 1 < v then none else some v

/-- `token.find('=')` followed by `substr(0,pos)` / `substr(pos+1)`
(main.cpp lines 136-140): `none` when the token has no `=`. -/
def splitAtEq (tok : List Char) : Option (List Char × List Char) :=
  match tok.findIdx? (· == '=') with
  | none => none
  | some pos => some (tok.take pos, tok.drop (pos + 1))

/-- Conversion of the `int` result of `std::stoi` to the `unsigned int`
parameter of `safeSetChannel` (C conversion: reduction modulo `2^32`). -/
def toUInt32Nat (v : Int) : Nat := (Int.emod v (U32 : Int)).toNat

/-- One `<idx>=<val>` token of a `setChannels` line (lines 135-146):
no `=` means the token is skipped; a `std::stoi` failure on either side
is caught and the token is skipped; otherwise `safeSetChannel` runs. -/
def applySetChannelsPair (tok : List Char) (s : ChannelStore) : ChannelStore :=
  match splitAtEq tok with
  | none => s
  | some (lhs, rhs) =>
    match stoi lhs, stoi rhs with
    | some chI, some v => safeSetChannel (toUInt32Nat chI) v s
    | _, _ => s

/-- Match a literal character sequence at the head of the input
(the non-directive characters of a `sscanf` format). -/
def matchLiteral : List Char → List Char → Option (List Char)
  | [], cs => some cs
  | _ :: _, [] => none
  | p :: ps, c :: cs => if c == p then matchLiteral ps cs else none

/-- One `sscanf` integer conversion after its own whitespace skip:
optional sign, then at least one decimal digit (matching failure
otherwise); returns the value and the unconsumed input. -/
def scanInt (cs : List Char) : Option (Int × List Char) :=
  let signAndRest : Bool × List Char :=
    match cs with
    | '-' :: rest => (true, rest)
    | '+' :: rest => (false, rest)
    | _ => (false, cs)
  let ds := takeDigits signAndRest.2
  if ds = [] then none
  else
    let n : Int := (digitsToNat ds : Int)
    some ((if signAndRest.1 then -n else n), signAndRest.2.drop ds.length)

/-- Wrap into `int32_t` range (the `%d` conversion stores an `int`;
out-of-range behaviour modelled as two's-complement wraparound). -/
def wrapInt32 (v : Int) : Int := Int.emod (v + 2 ^ 31) (2 ^ 32) - 2 ^ 31

/-- `sscanf(cmd.c_str(), "setChannel %u %d", &ch, &value)` (line 154):
match the literal, skip whitespace, read `%u` (negative input wraps
modulo `2^32` per `strtoul`), skip whitespace, read `%d`.  `some` iff
the return value is 2. -/
def scanSetChannel (cs : List Char) : Option (Nat × Int) :=
  match matchLiteral ("setChannel".data) cs with
  | none => none
  | some rest =>
    match scanInt (rest.dropWhile isCppSpace) with
    | none => none
    | some (u, r2) =>
      match scanInt (r2.dropWhile isCppSpace) with
      | none => none
      | some (d, _) => some (toUInt32Nat u, wrapInt32 d)

/-- `parseCommand` (lines 124-174) together with the store mutations it
performs through `safeSetChannel`.  Returns (recognized, new store);
`recognized` is the `bool` return value that makes the caller set
`needToSendChannels`. -/
def parseCommand (cmd : String) (s : ChannelStore) : Bool × ChannelStore :=
  if cmd.data = [] ∨ cmd.data.head? = some '#' then (false, s)
  else if ("setChannels".data).isPrefixOf cmd.data then
    (true, ((tokenize cmd.data).drop 1).foldl (fun st tok => applySetChannelsPair tok st) s)
  else if ("setChannel".data).isPrefixOf cmd.data then
    match scanSetChannel cmd.data with
    | some (ch, v) => (true, safeSetChannel ch v s)
    | none => (true, s)
  else if cmd.data = "sendChannels".data then (true, s)
  else if ("setMode".data).isPrefixOf cmd.data then (true, s)
  else (false, s)

/-! ## SchedulerLoop send decision (main.cpp lines 275-362)

Per-tick state: `lastSendMs : uint32_t` and `needToSendChannels : bool`.
Each tick reads `currentMillis = rpi_millis()`, processes commands
(any recognized command sets `needToSendChannels`), then decides:
emit when `currentMillis - lastSendMs >= 10` (uint32 subtraction), else
emit when `needToSendChannels && currentMillis - lastSendMs >= 2`. -/

structure SchedState where
  lastSendMs : Nat
  needToSend : Bool

/-- `uint32_t` subtraction `a - b` (wraparound modulo `2^32`). -/
def u32sub (a b : Nat) : Nat := (a + (U32 - b % U32)) % U32

/-- One evaluation of the send decision (lines 332-362) at clock reading
`currentMillis`, after command processing set the expedite flag when
`cmdRecognized` holds.  Returns (emitted, next state). -/
def schedTick (currentMillis : Nat) (cmdRecognized : Bool) (s : SchedState) :
    Bool × SchedState :=
  let need := s.needToSend || cmdRecognized
  if CRSF_SEND_PERIOD_MS ≤ u32sub currentMillis s.lastSendMs then
    (true, { lastSendMs := currentMillis % U32, needToSend := false })
  else if need = true ∧ 2 ≤ u32sub currentMillis s.lastSendMs then
    (true, { lastSendMs := currentMillis % U32, needToSend := false })
  else
    (false, { lastSendMs := s.lastSendMs, needToSend := need })

/-- State after `k` command-free ticks at times `T+1, ..., T+k`,
starting just after an emission at time `T`. -/
def noCmdState (T : Nat) : Nat → SchedState
  | 0 => { lastSendMs := T, needToSend := false }
  | k + 1 => (schedTick (T + (k + 1)) false (noCmdState T k)).2

/-- Whether the command-free tick at time `T+k` (`1 ≤ k`) emits. -/
def noCmdEmits (T k : Nat) : Bool :=
  (schedTick (T + k) false (noCmdState T (k - 1))).1

/-! ## TelemetrySnapshotter (`telemetryWriterWorker`, main.cpp lines 177-240)

The numeric getters of the opaque `CrsfSerial` transport are inputs;
`double`/`float` results of the GPS transformations are modelled
exactly on `Rat` (the claim under study concerns only which fields are
written, not float rounding).  The raw integer fields of the external
`crsf_sensor_gps_t` are modelled as `Int` (its header is not part of
this repository). -/

structure GpsSensor where
  latitude : Int
  longitude : Int
  altitude : Int
  groundspeed : Int

/-- What one loop iteration of `telemetryWriterWorker` reads from the
transport: every getter called in lines 200-231, with `gps = none`
modelling a null `getGpsSensor()` result. -/
structure TransportReadings where
  linkUp : Bool
  lastReceive : Nat
  nowMs : Nat
  channels : Fin 16 → Int
  gps : Option GpsSensor
  batteryVoltage : Rat
  batteryCurrent : Rat
  batteryCapacity : Rat
  batteryRemaining : Nat
  attitudeRoll : Rat
  attitudePitch : Rat
  attitudeYaw : Rat
  rawAttitudeRoll : Int
  rawAttitudePitch : Int
  rawAttitudeYaw : Int

/-- The `SharedTelemetryData` struct (lines 62-89). -/
structure SharedTelemetryData where
  linkUp : Bool
  lastReceive : Nat
  channels : Fin 16 → Int
  latitude : Rat
  longitude : Rat
  altitude : Rat
  speed : Rat
  voltage : Rat
  current : Rat
  capacity : Rat
  remaining : Nat
  roll : Rat
  pitch : Rat
  yaw : Rat
  rollRaw : Int
  pitchRaw : Int
  yawRaw : Int
  timestamp : Nat

/-- One body of the `while (true)` loop of `telemetryWriterWorker`
(lines 199-231): `shared` is declared outside the loop, so a field not
assigned this cycle keeps its previous value; the GPS block
(lines 211-217) runs only when `getGpsSensor()` is non-null. -/
def telemetryCycle (t : TransportReadings) (prev : SharedTelemetryData) :
    SharedTelemetryData :=
  { linkUp := t.linkUp
    lastReceive := t.lastReceive
    timestamp := t.nowMs
    channels := t.channels
    latitude :=
      match t.gps with
      | some g => (g.latitude : Rat) / 10000000
      | none => prev.latitude
    longitude :=
      match t.gps with
      | some g => (g.longitude : Rat) / 10000000
      | none => prev.longitude
    altitude :=
      match t.gps with
      | some g => ((g.altitude - 1000 : Int) : Rat)
      | none => prev.altitude
    speed :=
      match t.gps with
      | some g => (g.groundspeed : Rat) / 10
      | none => prev.speed
    voltage := t.batteryVoltage
    current := t.batteryCurrent
    capacity := t.batteryCapacity
    remaining := t.batteryRemaining
    roll := t.attitudeRoll
    pitch := t.attitudePitch
    yaw := t.attitudeYaw
    rollRaw := t.rawAttitudeRoll
    pitchRaw := t.rawAttitudePitch
    yawRaw := t.rawAttitudeYaw }

/-! ## Reachable channel-store states -/

/-- States of `currentChannels` reachable in the program: the static
initializer, the direct throttle-failsafe write in `main`, any
`safeSetChannel` call (command parsing and joystick mapping both go
through it), and any whole command line processed by `parseCommand`. -/
inductive Reachable : ChannelStore → Prop where
  | init : Reachable initialChannels
  | throttle (s : ChannelStore) : Reachable s → Reachable (throttleInit s)
  | write (s : ChannelStore) (ch : Nat) (v : Int) :
      Reachable s → Reachable (safeSetChannel ch v s)
  | cmd (s : ChannelStore) (line : String) :
      Reachable s → Reachable (parseCommand line s).2

/-- Every stored value lies in `[CHANNEL_MIN, CHANNEL_MAX]`. -/
abbrev storeInRange (s : ChannelStore) : Prop :=
  ∀ i : Fin 16, CHANNEL_MIN ≤ s i ∧ s i ≤ CHANNEL_MAX

/-! ## Preservation lemmas -/

theorem safeSetChannel_preserves (ch : Nat) (v : Int) (s : ChannelStore)
    (h : storeInRange s) : storeInRange (safeSetChannel ch v s) := by
  unfold safeSetChannel
  split_ifs with hg
  · intro i
    dsimp only
    split_ifs with hi
    · exact ⟨hg.2.2.1, hg.2.2.2⟩
    · exact h i
  · exact h

theorem applySetChannelsPair_preserves (tok : List Char) (s : ChannelStore)
    (h : storeInRange s) : storeInRange (applySetChannelsPair tok s) := by
  unfold applySetChannelsPair
  rcases splitAtEq tok with _ | ⟨lhs, rhs⟩
  · exact h
  · show storeInRange
      (match stoi lhs, stoi rhs with
        | some chI, some v => safeSetChannel (toUInt32Nat chI) v s
        | _, _ => s)
    rcases stoi lhs with _ | chI <;> rcases stoi rhs with _ | v
    · exact h
    · exact h
    · exact h
    · exact safeSetChannel_preserves _ _ _ h

theorem setChannelsFold_preserves (toks : List (List Char)) (s : ChannelStore)
    (h : storeInRange s) :
    storeInRange (toks.foldl (fun st tok => applySetChannelsPair tok st) s) := by
  induction toks generalizing s with
  | nil => exact h
  | cons t ts ih => exact ih _ (applySetChannelsPair_preserves t s h)

theorem parseCommand_preserves (line : String) (s : ChannelStore)
    (h : storeInRange s) : storeInRange (parseCommand line s).2 := by
  unfold parseCommand
  split_ifs with h1 h2 h3 h4 h5
  · exact h
  · exact setChannelsFold_preserves _ _ h
  · cases scanSetChannel line.data with
    | none => exact h
    | some p =>
      obtain ⟨ch, v⟩ := p
      exact safeSetChannel_preserves _ _ _ h
  · exact h
  · exact h
  · exact h

/-! ## Claim theorems -/

/-- C1: every reachable state of the channel store keeps all 16 stored
values in the inclusive range [1000, 2000]: the initial values are in
range and every write (`safeSetChannel`, whether from command parsing
or input mapping, plus the throttle-failsafe initialisation) either
stores an in-range value or leaves the store unchanged. -/
theorem c1_channel_range_invariant (s : ChannelStore) (h : Reachable s) :
    storeInRange s := by
  induction h with
  | init =>
    intro i
    unfold initialChannels DEFAULT_CHANNEL_VALUE CHANNEL_MIN CHANNEL_MAX
    omega
  | throttle s hs ih =>
    intro i
    unfold throttleInit
    split_ifs with hi
    · unfold DEFAULT_THROTTLE_VALUE CHANNEL_MIN CHANNEL_MAX
      omega
    · exact ih i
  | write s ch v hs ih => exact safeSetChannel_preserves ch v s ih
  | cmd s line hs ih => exact parseCommand_preserves line s ih

theorem c1_witness : storeInRange initialChannels :=
  c1_channel_range_invariant initialChannels Reachable.init

/-- C3: for every 16-bit signed axis sample, `axisToUs` agrees with the
spec's reference mapping (1500 inside the dead-zone `|v| < 100`, else
`1500 + (v*500)/32768` with division truncating toward zero, clamped
into [1000, 2000]), and its result always lies in [1000, 2000]. -/
theorem c3_axis_matches_reference (v : Int) (hlo : -32768 ≤ v) (hhi : v ≤ 32767) :
    axisToUs v = mapAxisSpec v ∧ 1000 ≤ axisToUs v ∧ axisToUs v ≤ 2000 := by
  have heq : axisToUs v = mapAxisSpec v := by
    rw [axisToUs_eq]
    unfold mapAxisSpec
    by_cases hd : v < 100 ∧ -100 < v
    · rw [if_pos hd, if_pos (abs_lt.mpr ⟨by omega, by omega⟩)]
    · rw [if_neg hd, if_neg (by rw [abs_lt]; omega)]
      generalize 1500 + Int.tdiv (v * 500) 32768 = r
      rw [min_def, max_def]
      unfold clampChan CHANNEL_MIN CHANNEL_MAX
      split_ifs <;> omega
  refine ⟨heq, ?_⟩
  rw [axisToUs_eq]
  split_ifs with hd
  · norm_num
  · exact clampChan_range _

theorem c3_witness :
    axisToUs 32767 = mapAxisSpec 32767 ∧
      1000 ≤ axisToUs 32767 ∧ axisToUs 32767 ≤ 2000 :=
  c3_axis_matches_reference 32767 (by norm_num) (by norm_num)

/-- C4: `safeSetChannel` with an index outside [1,16] or a value outside
[1000,2000] leaves the entire store unchanged (every index) and surfaces
no error; with index `i` in [1,16] and value `x` in [1000,2000] it
stores `x` at position `i-1` and leaves all other positions unchanged. -/
theorem c4_setChannel_contract (s : ChannelStore) (ch : Nat) (v : Int) :
    (¬(1 ≤ ch ∧ ch ≤ 16 ∧ 1000 ≤ v ∧ v ≤ 2000) → safeSetChannel ch v s = s) ∧
    (1 ≤ ch ∧ ch ≤ 16 ∧ 1000 ≤ v ∧ v ≤ 2000 →
      ∀ j : Fin 16, safeSetChannel ch v s j =
        if (j : Nat) = ch - 1 then v else s j) := by
  unfold safeSetChannel CHANNEL_COUNT CHANNEL_MIN CHANNEL_MAX
  constructor
  · intro hn
    rw [if_neg hn]
  · intro hy j
    rw [if_pos hy]

theorem c4_witness :
    safeSetChannel 99 1 initialChannels = initialChannels ∧
      safeSetChannel 5 1700 initialChannels (4 : Fin 16) = 1700 := by
  constructor
  · exact (c4_setChannel_contract initialChannels 99 1).1 (by omega)
  · have h := (c4_setChannel_contract initialChannels 5 1700).2
      (by omega) (4 : Fin 16)
    simpa using h

/-- C8: outside the dead-zone the axis mapping is monotonic
non-decreasing. -/
theorem c8_axis_monotone (v1 v2 : Int) (h1 : 100 ≤ |v1|) (h2 : 100 ≤ |v2|)
    (h : v1 ≤ v2) : axisToUs v1 ≤ axisToUs v2 := by
  rw [axisToUs_eq, axisToUs_eq]
  rw [le_abs] at h1 h2
  rw [if_neg (by omega), if_neg (by omega)]
  refine clampChan_mono ?_
  have hm : Int.tdiv (v1 * 500) 32768 ≤ Int.tdiv (v2 * 500) 32768 :=
    tdiv_le_tdiv_right (by norm_num) (by omega)
  omega

theorem c8_witness : axisToUs (-200) ≤ axisToUs 300 :=
  c8_axis_monotone (-200) 300 (by decide) (by decide) (by decide)

/-- C9: on the inverted axes (throttle, pitch) a raw sample of exactly
-32768 maps to channel value 1000, not 2000: negating the most negative
`int16_t` wraps modulo 2^16 back to -32768 before entering `axisToUs`,
so full deflection in that direction yields the same output as the
non-inverted (opposite-convention) mapping of that extreme sample. -/
theorem c9_inverted_extreme_wraps :
    toInt16 (-(-32768 : Int)) = -32768 ∧
      invertedAxis (-32768) = 1000 ∧
      invertedAxis (-32768) ≠ 2000 ∧
      invertedAxis (-32768) = axisToUs (-32768) := by decide

/-- C6: parsing `"setChannels 1=1200 3=1800 99=1 1=abc"` against any
store applies exactly the two mutations channel 1 → 1200 and
channel 3 → 1800; the out-of-range pair `99=1` and the malformed pair
`1=abc` mutate nothing and do not abort the rest of the line, and the
command is reported as recognized. -/
theorem c6_setChannels_line (s : ChannelStore) :
    (parseCommand "setChannels 1=1200 3=1800 99=1 1=abc" s).1 = true ∧
    (parseCommand "setChannels 1=1200 3=1800 99=1 1=abc" s).2 =
      fun i : Fin 16 =>
        if (i : Nat) = 2 then 1800 else if (i : Nat) = 0 then 1200 else s i :=
  ⟨rfl, rfl⟩

/-- C7 counterexample: the line `"setChannelsX 1=1200"` has a first
whitespace-delimited token that is none of the four grammar keywords,
is not blank and not a comment — yet `parseCommand` reports it
recognized (signalling expedite) and even mutates channel 1, because
recognition tests `startsWith` on the whole line, not first-token
equality. -/
theorem c7_counterexample :
    ((tokenize "setChannelsX 1=1200".data).headD [] ≠ "setChannels".data ∧
      (tokenize "setChannelsX 1=1200".data).headD [] ≠ "setChannel".data ∧
      (tokenize "setChannelsX 1=1200".data).headD [] ≠ "sendChannels".data ∧
      (tokenize "setChannelsX 1=1200".data).headD [] ≠ "setMode".data) ∧
    "setChannelsX 1=1200".data ≠ [] ∧
    "setChannelsX 1=1200".data.head? ≠ some '#' ∧
    (parseCommand "setChannelsX 1=1200" initialChannels).1 = true ∧
    (parseCommand "setChannelsX 1=1200" initialChannels).2 (0 : Fin 16) = 1200 := by
  decide

theorem isPrefixOf_of_append (p t l : List Char)
    (h : (p ++ t).isPrefixOf l = true) : p.isPrefixOf l = true := by
  induction p generalizing l with
  | nil => cases l <;> rfl
  | cons a ps ih =>
    cases l with
    | nil => simp [List.isPrefixOf] at h
    | cons b bs =>
      simp only [List.cons_append, List.isPrefixOf, Bool.and_eq_true] at h ⊢
      exact ⟨h.1, ih bs h.2⟩

/-- C7 (amended): recognition is by line prefix, not by first-token
equality.  Every input line that does not start with the character
sequence `setChannel` or `setMode`, is not exactly `sendChannels`, and
is not blank or a comment, is unrecognized: no store mutation and no
expedite signal.  (Lines that merely start with a keyword — such as
`setChannelsX 1=1200` — are still recognized and may mutate.) -/
theorem c7_amended_unrecognized (cmd : String) (s : ChannelStore)
    (hne : cmd.data ≠ [])
    (hnc : cmd.data.head? ≠ some '#')
    (h1 : ¬ ("setChannel".data.isPrefixOf cmd.data = true))
    (h2 : cmd.data ≠ "sendChannels".data)
    (h3 : ¬ ("setMode".data.isPrefixOf cmd.data = true)) :
    parseCommand cmd s = (false, s) := by
  have h0 : ¬ ("setChannels".data.isPrefixOf cmd.data = true) := by
    intro hc
    refine h1 (isPrefixOf_of_append "setChannel".data ['s'] cmd.data ?_)
    have he : "setChannel".data ++ ['s'] = "setChannels".data := by decide
    rw [he]
    exact hc
  unfold parseCommand
  rw [if_neg (not_or.mpr ⟨hne, hnc⟩), if_neg h0, if_neg h1, if_neg h2, if_neg h3]

theorem c7_amended_witness :
    parseCommand "hello world" initialChannels = (false, initialChannels) :=
  c7_amended_unrecognized "hello world" initialChannels (by decide) (by decide)
    (by decide) (by decide) (by decide)

/-- C2 counterexample: with the last emission at millisecond 0, an
expedite-flagged command processed on the tick at millisecond 3 causes
an emission on that very tick (0 ms after the command's arrival), not
at least 2 ms later: the 2 ms minimum spacing is measured from the last
emission, which is already 3 ms in the past. -/
theorem c2_counterexample :
    (schedTick 3 true { lastSendMs := 0, needToSend := false }).1 = true ∧
    (schedTick 3 true { lastSendMs := 0, needToSend := false }).2.lastSendMs = 3 := by
  decide

/-- C2 (amended): if an expedite-flagged command arrives 3 ms after the
last emission, the next emission occurs immediately on the tick the
command is processed, because the 2 ms minimum spacing is measured
since the last emission (3 ms ≥ 2 ms), not since the command's
arrival. -/
theorem c2_amended_immediate_emit (T : Nat) (hT : T + 3 < U32) :
    (schedTick (T + 3) true { lastSendMs := T, needToSend := false }).1 = true ∧
    (schedTick (T + 3) true { lastSendMs := T, needToSend := false }).2.lastSendMs
      = T + 3 := by
  have hs : u32sub (T + 3) T = 3 := by
    unfold U32 at hT
    unfold u32sub U32
    omega
  simp only [schedTick, CRSF_SEND_PERIOD_MS, hs]
  norm_num
  exact Nat.mod_eq_of_lt hT

theorem c2_amended_witness :
    (schedTick 3 true { lastSendMs := 0, needToSend := false }).2.lastSendMs = 3 :=
  (c2_amended_immediate_emit 0 (by unfold U32; norm_num)).2

theorem noCmdState_eq (T : Nat) (hT : T + 10 < U32) :
    ∀ k, k ≤ 9 → noCmdState T k = { lastSendMs := T, needToSend := false } := by
  intro k
  induction k with
  | zero =>
    intro _
    rfl
  | succ n ih =>
    intro hn
    have hstate := ih (by omega)
    show (schedTick (T + (n + 1)) false (noCmdState T n)).2 = _
    rw [hstate]
    have hs : u32sub (T + (n + 1)) T = n + 1 := by
      unfold U32 at hT
      unfold u32sub U32
      omega
    simp only [schedTick, CRSF_SEND_PERIOD_MS, hs]
    rw [if_neg (by omega)]
    simp

/-- C5: with ticks 1 ms apart, no commands and no expedite flag, the
emission after an emission at time `T` occurs exactly at the tick where
10 ms have elapsed (tick `T+10`) and at no earlier tick. -/
theorem c5_periodic_emission (T k : Nat) (hT : T + 10 < U32)
    (hk1 : 1 ≤ k) (hk2 : k ≤ 10) :
    noCmdEmits T k = true ↔ k = 10 := by
  unfold noCmdEmits
  rw [noCmdState_eq T hT (k - 1) (by omega)]
  have hs : u32sub (T + k) T = k := by
    unfold U32 at hT
    unfold u32sub U32
    omega
  simp only [schedTick, CRSF_SEND_PERIOD_MS, hs]
  constructor
  · intro h
    by_contra hne
    rw [if_neg (by omega)] at h
    simp at h
  · intro h
    subst h
    rw [if_pos (by omega)]

theorem c5_witness : noCmdEmits 0 10 = true :=
  (c5_periodic_emission 0 10 (by unfold U32; norm_num) (by norm_num)
    (by norm_num)).mpr rfl

/-- C10: on a telemetry cycle where the GPS getter returns null, the
latitude, longitude, altitude and speed fields keep their previous
values, while every other field of the record is freshly read from the
transport. -/
theorem c10_gps_null_frame (t : TransportReadings) (prev : SharedTelemetryData)
    (h : t.gps = none) :
    (telemetryCycle t prev).latitude = prev.latitude ∧
    (telemetryCycle t prev).longitude = prev.longitude ∧
    (telemetryCycle t prev).altitude = prev.altitude ∧
    (telemetryCycle t prev).speed = prev.speed ∧
    (telemetryCycle t prev).linkUp = t.linkUp ∧
    (telemetryCycle t prev).lastReceive = t.lastReceive ∧
    (telemetryCycle t prev).timestamp = t.nowMs ∧
    (telemetryCycle t prev).channels = t.channels ∧
    (telemetryCycle t prev).voltage = t.batteryVoltage ∧
    (telemetryCycle t prev).current = t.batteryCurrent ∧
    (telemetryCycle t prev).capacity = t.batteryCapacity ∧
    (telemetryCycle t prev).remaining = t.batteryRemaining ∧
    (telemetryCycle t prev).roll = t.attitudeRoll ∧
    (telemetryCycle t prev).pitch = t.attitudePitch ∧
    (telemetryCycle t prev).yaw = t.attitudeYaw ∧
    (telemetryCycle t prev).rollRaw = t.rawAttitudeRoll ∧
    (telemetryCycle t prev).pitchRaw = t.rawAttitudePitch ∧
    (telemetryCycle t prev).yawRaw = t.rawAttitudeYaw := by
  simp [telemetryCycle, h]

/-- Concrete transport readings with a null GPS sensor, for the C10
witness. -/
def sampleReadings : TransportReadings :=
  { linkUp := true, lastReceive := 41, nowMs := 42, channels := fun _ => 1500,
    gps := none, batteryVoltage := 12, batteryCurrent := 3,
    batteryCapacity := 100, batteryRemaining := 80, attitudeRoll := 1,
    attitudePitch := 2, attitudeYaw := 3, rawAttitudeRoll := 10,
    rawAttitudePitch := 20, rawAttitudeYaw := 30 }

/-- Concrete previous telemetry record, for the C10 witness. -/
def samplePrev : SharedTelemetryData :=
  { linkUp := false, lastReceive := 0, channels := fun _ => 1000,
    latitude := 55, longitude := 37, altitude := 200, speed := 9,
    voltage := 0, current := 0, capacity := 0, remaining := 0,
    roll := 0, pitch := 0, yaw := 0, rollRaw := 0, pitchRaw := 0,
    yawRaw := 0, timestamp := 0 }

theorem c10_witness :
    sampleReadings.gps = none ∧
    (telemetryCycle sampleReadings samplePrev).latitude = samplePrev.latitude ∧
    (telemetryCycle sampleReadings samplePrev).linkUp = sampleReadings.linkUp :=
  ⟨rfl, (c10_gps_null_frame sampleReadings samplePrev rfl).1,
    (c10_gps_null_frame sampleReadings samplePrev rfl).2.2.2.2.1⟩

end CRSFM
